import Mathlib

/-!
Shallow embedding of the construction-management backend
(FastAPI + MongoDB), restricted to the parts the verified claims touch:
the data model (src/models), the persistence operations
(src/database/operations.py, with the unique indexes of
src/database/db.py), the authentication layer (src/routers/auth.py) and
the handlers of src/routers/{requests,users,projects,notifications}.py.

Python floats are modelled as rationals, MongoDB ObjectIds as naturals,
and timestamps as naturals (minutes).  A JWT is modelled as its decoded
payload together with the key it was signed with; a signature verifies
exactly when the verifying key equals the signing key (idealized HMAC).
The bcrypt password hash is modelled as an idealized one-way record of
its preimage.
-/

namespace ConstructionApi

/-- Models UserRole from src/models/user.py. -/
inductive Role where
  | manager
  | worker
  | client
deriving DecidableEq, Repr

/-- Idealized salted one-way password hash (passlib bcrypt in
src/routers/auth.py).  Verification succeeds exactly on the original
preimage; the model never exposes the preimage as a stored plaintext
field of a user document. -/
structure PwHash where
  preimage : String
deriving DecidableEq, Repr

/-- Models get_password_hash (src/routers/auth.py line 37). -/
def getPasswordHash (password : String) : PwHash :=
  ⟨password⟩

/-- Models verify_password (src/routers/auth.py line 34). -/
def verifyPassword (plain : String) (hashed : PwHash) : Bool :=
  plain = hashed.preimage

/-- Document of the users collection: username, email, role,
hashed_password (src/routers/auth.py register_user / create_staff). -/
structure UserDoc where
  id : Nat
  username : String
  email : String
  role : Role
  hashedPassword : PwHash
deriving DecidableEq, Repr

/-- Embedded progress report (src/models/project.py ProgressReport):
report_date, description, percentage_complete. -/
structure ReportDoc where
  reportDate : Nat
  description : String
  percentageComplete : ℚ
deriving DecidableEq, Repr

/-- Document of the projects collection.  The create-project handler
(src/routers/projects.py lines 158-174) writes the ProjectCreate fields
plus status and created_by; it never writes a manager_id key, which the
model records as an Option field left none by project creation. -/
structure ProjectDoc where
  id : Nat
  name : String
  description : String
  location : String
  budget : ℚ
  startDate : Nat
  endDate : Nat
  clientId : Nat
  status : String
  createdBy : Nat
  managerId : Option Nat
  progressReports : List ReportDoc
deriving DecidableEq, Repr

/-- Document of the inventory collection (src/models/inventory.py). -/
structure ItemDoc where
  id : Nat
  name : String
  description : Option String
  quantity : ℚ
  unit : String
  costPerUnit : Option ℚ
  projectId : Nat
deriving DecidableEq, Repr

/-- Document of the expenses collection (src/models/expense.py);
verified is the verification status string pending/approved/flagged. -/
structure ExpenseDoc where
  id : Nat
  amount : ℚ
  description : String
  date : Nat
  projectId : Nat
  verified : String
deriving DecidableEq, Repr

/-- Document of the material_usage collection
(src/models/material_usage.py). -/
structure UsageDoc where
  id : Nat
  itemName : String
  quantityUsed : ℚ
  date : Nat
  projectId : Nat
deriving DecidableEq, Repr

/-- Document of the requests collection (src/models/request.py);
manager_id is optional and stays whatever the request data carried. -/
structure RequestDoc where
  id : Nat
  itemName : String
  quantity : ℚ
  projectId : Nat
  workerId : Nat
  managerId : Option Nat
  status : String
deriving DecidableEq, Repr

/-- Document of the notifications collection
(src/models/notification.py); user_id can be absent (None) because
create_request copies request_data.get("manager_id") into it. -/
structure NotifDoc where
  id : Nat
  userId : Option Nat
  type : String
  message : String
  read : Bool
  requestId : Option Nat
deriving DecidableEq, Repr

/-- State of the document store: one list per collection used by the
claims, plus a fresh-id counter standing for ObjectId generation. -/
structure DB where
  users : List UserDoc
  projects : List ProjectDoc
  inventory : List ItemDoc
  expenses : List ExpenseDoc
  usageLogs : List UsageDoc
  requests : List RequestDoc
  notifications : List NotifDoc
  nextId : Nat
deriving DecidableEq, Repr

/-- Mongo update_one: rewrite the first element satisfying the filter,
leave the rest unchanged. -/
def updateFirst (p : α → Bool) (f : α → α) : List α → List α
  | [] => []
  | x :: xs => if p x then f x :: xs else x :: updateFirst p f xs

/-! Operations of src/database/operations.py. -/

/-- Models get_user_by_username (operations.py line 29): find_one on
the username field. -/
def getUserByUsername (db : DB) (username : String) : Option UserDoc :=
  db.users.find? (fun u => u.username = username)

/-- Models get_user_by_id (operations.py line 35).  Ids are naturals in
the model, so the ObjectId.is_valid guard never fires here; the one
call site that passes a possibly-missing id (requests.py line 81)
handles the missing case explicitly. -/
def getUserById (db : DB) (userId : Nat) : Option UserDoc :=
  db.users.find? (fun u => u.id = userId)

/-- Models create_user (operations.py line 24) together with the
unique indexes on username and email that init_db installs
(src/database/db.py lines 34-35): insert_one raises DuplicateKeyError
when either value is already present, and no document is inserted. -/
def createUser (db : DB) (username email : String) (role : Role)
    (hashedPassword : PwHash) : Except Unit (Nat × DB) :=
  if db.users.any (fun u => u.username = username || u.email = email) then
    .error ()
  else
    let uid := db.nextId
    .ok (uid, { db with
      users := db.users ++ [⟨uid, username, email, role, hashedPassword⟩],
      nextId := db.nextId + 1 })

/-- Models delete_user (operations.py line 65): delete_one removes the
first matching document and the function reports deleted_count > 0. -/
def deleteUser (db : DB) (userId : Nat) : Bool × DB :=
  (db.users.any (fun u => u.id = userId),
   { db with users := db.users.eraseP (fun u => u.id = userId) })

/-- Models get_project (operations.py line 86). -/
def getProject (db : DB) (projectId : Nat) : Option ProjectDoc :=
  db.projects.find? (fun p => p.id = projectId)

/-- Models get_progress_reports (operations.py line 117): the
progress_reports array of the project, or [] when absent. -/
def getProgressReports (db : DB) (projectId : Nat) : List ReportDoc :=
  match getProject db projectId with
  | some p => p.progressReports
  | none => []

/-- Models get_expenses_by_project (operations.py line 275): all
expense documents whose project_id matches, every verification status
included. -/
def getExpensesByProject (db : DB) (projectId : Nat) : List ExpenseDoc :=
  db.expenses.filter (fun e => e.projectId = projectId)

/-- Models get_material_usage_by_project (operations.py line 259). -/
def getMaterialUsageByProject (db : DB) (projectId : Nat) : List UsageDoc :=
  db.usageLogs.filter (fun l => l.projectId = projectId)

/-- One step of the grouping loop of get_project_summary (operations.py
lines 336-343): add quantity to the running total of item_name, or
start a new entry. -/
def addUsage (acc : List (String × ℚ)) (name : String) (q : ℚ) :
    List (String × ℚ) :=
  if acc.any (fun kv => kv.1 = name) then
    updateFirst (fun kv => kv.1 = name) (fun kv => (kv.1, kv.2 + q)) acc
  else
    acc ++ [(name, q)]

/-- Result shape of get_project_summary (operations.py lines 349-358),
cf. ProjectSummary in src/models/project.py. -/
structure ProjectSummary where
  projectName : String
  totalExpenses : ℚ
  materialUsage : List (String × ℚ)
  progressPercentage : ℚ
  startDate : Nat
  endDate : Nat
  expensesCount : Nat
  materialUsageCount : Nat
deriving DecidableEq, Repr

/-- Body of get_project_summary (operations.py lines 330-358) once the
project document has been loaded: sum of all expense amounts, material
usage grouped by item name, percentage_complete of the last progress
report (0 when there is none), and the two counts. -/
def summarize (db : DB) (projectId : Nat) (project : ProjectDoc) : ProjectSummary :=
  { projectName := project.name
    totalExpenses := ((getExpensesByProject db projectId).map (fun e => e.amount)).sum
    materialUsage :=
      (getMaterialUsageByProject db projectId).foldl
        (fun acc log => addUsage acc log.itemName log.quantityUsed) []
    progressPercentage :=
      ((getProgressReports db projectId).getLast?).elim (0 : ℚ)
        (fun r => r.percentageComplete)
    startDate := project.startDate
    endDate := project.endDate
    expensesCount := (getExpensesByProject db projectId).length
    materialUsageCount := (getMaterialUsageByProject db projectId).length }

/-- Models get_project_summary (operations.py lines 321-358).  Returns
none (the empty dict of the source) when the project does not exist,
otherwise the summary computed by summarize. -/
def getProjectSummary (db : DB) (projectId : Nat) : Option ProjectSummary :=
  match getProject db projectId with
  | none => none
  | some project => some (summarize db projectId project)

/-- Input of log_material_usage, cf. MaterialUsageCreate
(src/models/material_usage.py). -/
structure UsageCreate where
  itemName : String
  quantityUsed : ℚ
  date : Nat
  projectId : Nat
deriving DecidableEq, Repr

/-- Models log_material_usage (operations.py lines 235-257): insert the
usage document, then find_one the inventory item matching item name and
project id; if found, apply an atomic increment of -quantity_used to
that document, otherwise change nothing. -/
def logMaterialUsage (db : DB) (usage : UsageCreate) : Nat × DB :=
  let uid := db.nextId
  let newLog : UsageDoc :=
    ⟨uid, usage.itemName, usage.quantityUsed, usage.date, usage.projectId⟩
  match db.inventory.find?
      (fun it => it.name = usage.itemName && it.projectId = usage.projectId) with
  | none =>
    (uid, { db with usageLogs := db.usageLogs ++ [newLog], nextId := db.nextId + 1 })
  | some item =>
    let newInventory :=
      updateFirst (fun it => it.id = item.id)
        (fun it => { it with quantity := it.quantity - usage.quantityUsed })
        db.inventory
    (uid, { db with usageLogs := db.usageLogs ++ [newLog],
                    inventory := newInventory, nextId := db.nextId + 1 })

/-- Input of create_request, cf. RequestCreate (src/models/request.py):
manager_id is optional with default None. -/
structure RequestData where
  itemName : String
  quantity : ℚ
  projectId : Nat
  workerId : Nat
  managerId : Option Nat
deriving DecidableEq, Repr

/-- Models create_request (operations.py lines 198-214): insert the
request with status pending, then insert one notification of type
inventory_request whose user_id is request_data.get("manager_id") and
whose request_id links back to the new request. -/
def createRequest (db : DB) (data : RequestData) : Nat × DB :=
  let rid := db.nextId
  let newRequest : RequestDoc :=
    ⟨rid, data.itemName, data.quantity, data.projectId, data.workerId,
      data.managerId, "pending"⟩
  let db1 := { db with requests := db.requests ++ [newRequest], nextId := db.nextId + 1 }
  let notif : NotifDoc :=
    ⟨db1.nextId, data.managerId, "inventory_request",
      "New inventory request for " ++ data.itemName, false, some rid⟩
  (rid, { db1 with notifications := db1.notifications ++ [notif], nextId := db1.nextId + 1 })

/-- Models get_notifications (operations.py line 302). -/
def getNotifications (db : DB) (userId : Nat) : List NotifDoc :=
  db.notifications.filter (fun n => n.userId = some userId)

/-- Models mark_notification_read (operations.py lines 311-318):
update_one with a $set of read to true, reporting modified_count > 0.
Mongo counts a document as modified only when the update actually
changes it, so a notification whose read flag is already true yields
modified_count 0 and the operation reports false. -/
def markNotificationRead (db : DB) (notificationId : Nat) : Bool × DB :=
  match db.notifications.find? (fun n => n.id = notificationId) with
  | none => (false, db)
  | some n =>
    let newNotifications :=
      updateFirst (fun m => m.id = notificationId)
        (fun m => { m with read := true }) db.notifications
    (n.read = false, { db with notifications := newNotifications })

/-! Authentication layer of src/routers/auth.py. -/

/-- Models SECRET_KEY (auth.py line 27, the default value). -/
def secretKey : String :=
  "a9ddbcaba8c0ac1a0a812dc0c2f08514f5593b02f0a1a9fdd4da1e28d6391cb7"

/-- Models ACCESS_TOKEN_EXPIRE_MINUTES (auth.py line 29): 24 hours. -/
def accessTokenExpireMinutes : Nat := 60 * 24

/-- Decoded claims of a token issued by login (auth.py line 292):
subject = username, user_id, role, plus the exp added by
create_access_token. -/
structure TokenPayload where
  sub : String
  userId : Nat
  role : Role
  exp : Nat
deriving DecidableEq, Repr

/-- Idealized signed token: the payload together with the key that
produced the signature.  A signature verifies exactly when the
verifying key equals the signing key. -/
structure Jwt where
  payload : TokenPayload
  signedWith : String
deriving DecidableEq, Repr

/-- Models jwt.encode(to_encode, SECRET_KEY, algorithm=ALGORITHM). -/
def jwtEncode (key : String) (payload : TokenPayload) : Jwt :=
  ⟨payload, key⟩

/-- Models jwt.decode(token, key, algorithms=[ALGORITHM]) of python-jose:
fails (JWTError) when the signature does not verify under the key or
when the exp claim lies strictly in the past. -/
def jwtDecode (key : String) (now : Nat) (tok : Jwt) : Option TokenPayload :=
  if tok.signedWith = key then
    if tok.payload.exp < now then none else some tok.payload
  else none

/-- Models create_access_token (auth.py lines 40-48): expiry is now plus
the given delta, defaulting to ACCESS_TOKEN_EXPIRE_MINUTES, and the
result is signed with SECRET_KEY. -/
def createAccessToken (sub : String) (userId : Nat) (role : Role)
    (expiresDelta : Option Nat) (now : Nat) : Jwt :=
  let expire := now + expiresDelta.getD accessTokenExpireMinutes
  jwtEncode secretKey ⟨sub, userId, role, expire⟩

/-- Client-visible error classes, one per HTTP status the handlers
raise: 400, 401, 403, 404, 500. -/
inductive ApiError where
  | badRequest
  | unauthorized
  | forbidden
  | notFound
  | serverError
deriving DecidableEq, Repr

/-- Models authenticate_user (auth.py lines 50-56). -/
def authenticateUser (db : DB) (username password : String) : Option UserDoc :=
  match getUserByUsername db username with
  | none => none
  | some user =>
    if verifyPassword password user.hashedPassword then some user else none

/-- Models login_for_access_token (auth.py lines 267-297): 401 on
unknown username or wrong password, otherwise a token embedding
sub = username, user_id, role, expiring 24 hours from issuance. -/
def loginForAccessToken (db : DB) (now : Nat) (username password : String) :
    Except ApiError Jwt :=
  match authenticateUser db username password with
  | none => .error .unauthorized
  | some user =>
    .ok (createAccessToken user.username user.id user.role
      (some accessTokenExpireMinutes) now)

/-- Models get_current_user (auth.py lines 59-101): decode the token
(401 on JWTError, i.e. bad signature or expiry), then load the user by
the sub claim (401 when absent). -/
def getCurrentUser (db : DB) (now : Nat) (tok : Jwt) :
    Except ApiError UserDoc :=
  match jwtDecode secretKey now tok with
  | none => .error .unauthorized
  | some payload =>
    match getUserByUsername db payload.sub with
    | none => .error .unauthorized
    | some user => .ok user

/-- Models check_user_role (auth.py lines 104-147): decode the token
(401 on JWTError), 403 when the role claim is not among the allowed
roles, otherwise return the full decoded payload.  In the model every
payload carries a role, so the missing-role 401 branch never fires. -/
def checkUserRole (allowedRoles : List Role) (now : Nat) (tok : Jwt) :
    Except ApiError TokenPayload :=
  match jwtDecode secretKey now tok with
  | none => .error .unauthorized
  | some payload =>
    if allowedRoles.contains payload.role then .ok payload
    else .error .forbidden

/-- Values a Python dict lookup on the decoded token payload can
return. -/
inductive PyValue where
  | str (s : String)
  | num (n : Nat)
  | ofRole (r : Role)
deriving DecidableEq, Repr

/-- Subscript access on the dict that jwt.decode returns for a token
issued by login: its keys are exactly sub, user_id, role and exp
(auth.py lines 46, 292).  Any other key, in particular "id", is absent,
so subscripting it raises KeyError in Python; the model returns none
there. -/
def payloadItem (p : TokenPayload) (key : String) : Option PyValue :=
  if key = "sub" then some (.str p.sub)
  else if key = "user_id" then some (.num p.userId)
  else if key = "role" then some (.ofRole p.role)
  else if key = "exp" then some (.num p.exp)
  else none

/-! Endpoint handlers.  Each handler runs its auth dependency first
(check_user_role or get_current_user), then the body; an uncaught
Python exception inside the body (or one caught by the handler's own
blanket except clause) surfaces to the client as a 500, either through
the handler's own HTTPException(500) or through the global exception
handler of src/main.py lines 151-158. -/

/-- Input of the register endpoint, cf. UserCreate
(src/models/user.py). -/
structure RegisterData where
  username : String
  email : String
  role : Role
  password : String
deriving DecidableEq, Repr

/-- Models register_user (src/routers/auth.py lines 180-241): 400 when
the username is already registered; otherwise hash the password and
insert.  The handler never checks the email, so a duplicate email
reaches the store, whose unique index rejects the insert with
DuplicateKeyError; that lands in the blanket except branch, which
raises HTTPException(500). -/
def registerUser (db : DB) (data : RegisterData) : Except ApiError Nat × DB :=
  match getUserByUsername db data.username with
  | some _ => (.error .badRequest, db)
  | none =>
    let hashed := getPasswordHash data.password
    match createUser db data.username data.email data.role hashed with
    | .error _ => (.error .serverError, db)
    | .ok (uid, db1) => (.ok uid, db1)

/-- Models request_inventory_item (src/routers/requests.py lines
49-97): worker role required; 404 when the project does not exist;
then the handler evaluates current_user["id"] where current_user is the
raw token payload returned by check_user_role — the "id" key is absent,
so Python raises KeyError, which the global exception handler converts
to a 500.  The remaining branches (403 on worker mismatch, manager
lookup via project.get("manager_id", ""), create_request) follow the
source but sit behind that subscript. -/
def requestInventoryItem (db : DB) (now : Nat) (tok : Jwt)
    (data : RequestData) : Except ApiError Nat × DB :=
  match checkUserRole [Role.worker] now tok with
  | .error e => (.error e, db)
  | .ok payload =>
    match getProject db data.projectId with
    | none => (.error .notFound, db)
    | some project =>
      match payloadItem payload "id" with
      | none => (.error .serverError, db)
      | some v =>
        if PyValue.num data.workerId ≠ v then (.error .forbidden, db)
        else
          let projectManager :=
            match project.managerId with
            | some managerId => getUserById db managerId
            | none => none
          let dataWithManager :=
            match projectManager with
            | some m => { data with managerId := some m.id }
            | none => data
          let created := createRequest db dataWithManager
          (.ok created.1, created.2)

/-- Models delete_user_by_id (src/routers/users.py lines 226-273):
manager role required; 404 when the target user does not exist; then
the self-protection check evaluates current_user["id"] on the raw token
payload — the "id" key is absent, so Python raises KeyError, which the
handler's own except branch turns into HTTPException(500).  The 400
self-delete branch and the deletion itself follow the source but sit
behind that subscript. -/
def deleteUserById (db : DB) (now : Nat) (tok : Jwt) (userId : Nat) :
    Except ApiError Unit × DB :=
  match checkUserRole [Role.manager] now tok with
  | .error e => (.error e, db)
  | .ok payload =>
    match getUserById db userId with
    | none => (.error .notFound, db)
    | some _ =>
      match payloadItem payload "id" with
      | none => (.error .serverError, db)
      | some v =>
        if PyValue.num userId = v then (.error .badRequest, db)
        else
          let deleted := deleteUser db userId
          if deleted.1 then (.ok (), deleted.2)
          else (.error .serverError, deleted.2)

/-- Models get_project_stats (src/routers/projects.py lines 762-810):
manager or client role required; 404 when the project does not exist;
403 when the caller is a client and the project's client_id differs
from the token's user_id; otherwise the summary. -/
def getProjectStats (db : DB) (now : Nat) (tok : Jwt) (projectId : Nat) :
    Except ApiError ProjectSummary :=
  match checkUserRole [Role.manager, Role.client] now tok with
  | .error e => .error e
  | .ok payload =>
    match getProject db projectId with
    | none => .error .notFound
    | some project =>
      if payload.role = Role.client ∧ project.clientId ≠ payload.userId then
        .error .forbidden
      else
        match getProjectSummary db projectId with
        | some summary => .ok summary
        | none => .error .serverError

/-- Input of the create-project endpoint, cf. ProjectCreate
(src/models/project.py). -/
structure ProjectCreateData where
  name : String
  description : String
  location : String
  budget : ℚ
  startDate : Nat
  endDate : Nat
  clientId : Nat
deriving DecidableEq, Repr

/-- Models create_project (src/routers/projects.py lines 96-193):
manager role required; 404 when the client does not exist; 400 when the
referenced user is not a client; otherwise insert the ProjectCreate
fields plus status planning and created_by — and no manager_id key. -/
def createProjectEndpoint (db : DB) (now : Nat) (tok : Jwt)
    (data : ProjectCreateData) : Except ApiError Nat × DB :=
  match checkUserRole [Role.manager] now tok with
  | .error e => (.error e, db)
  | .ok payload =>
    match getUserById db data.clientId with
    | none => (.error .notFound, db)
    | some client =>
      if client.role ≠ Role.client then (.error .badRequest, db)
      else
        let pid := db.nextId
        let project : ProjectDoc :=
          ⟨pid, data.name, data.description, data.location, data.budget,
            data.startDate, data.endDate, data.clientId, "planning",
            payload.userId, none, []⟩
        (.ok pid, { db with projects := db.projects ++ [project], nextId := db.nextId + 1 })

/-- Models mark_notification_as_read (src/routers/notifications.py
lines 30-42): any authenticated user; no ownership check relates the
notification's recipient to the caller; 500 when
mark_notification_read reports no modified document. -/
def markNotificationAsRead (db : DB) (now : Nat) (tok : Jwt)
    (notificationId : Nat) : Except ApiError Unit × DB :=
  match getCurrentUser db now tok with
  | .error e => (.error e, db)
  | .ok _ =>
    let marked := markNotificationRead db notificationId
    if marked.1 then (.ok (), marked.2)
    else (.error .serverError, marked.2)

/-! Helper lemmas. -/

/-- When the first element matching p and the first element matching q
are the same element a, rewriting the first q-match with f makes f a
the first p-match, provided f a still matches p. -/
theorem find?_updateFirst {α} (p q : α → Bool) (f : α → α) (a : α)
    (hpf : p (f a) = true) :
    ∀ l : List α, l.find? p = some a → l.find? q = some a →
      (updateFirst q f l).find? p = some (f a) := by
  intro l
  induction l with
  | nil => intro hp _; simp at hp
  | cons x xs ih =>
    intro hp hq
    by_cases hqx : q x = true
    · have hax : a = x := by
        have hpa : p a = true := List.find?_some hp
        rw [List.find?_cons_of_pos _ hqx] at hq
        exact (Option.some_injective _ hq).symm
      rw [updateFirst, if_pos hqx]
      rw [hax] at hpf
      rw [List.find?_cons_of_pos _ hpf, hax]
    · have hqx' : q x = false := by simpa using hqx
      rw [List.find?_cons_of_neg _ (by simp [hqx'])] at hq
      have hpx : p x = false := by
        by_contra hp'
        have hpx : p x = true := by simpa using hp'
        rw [List.find?_cons_of_pos _ hpx] at hp
        have hax : a = x := (Option.some_injective _ hp).symm
        have hqa : q a = true := List.find?_some hq
        rw [hax, hqx'] at hqa
        exact Bool.false_ne_true hqa
      rw [List.find?_cons_of_neg _ (by simp [hpx])] at hp
      rw [updateFirst, if_neg (by simp [hqx'])]
      rw [List.find?_cons_of_neg _ (by simp [hpx])]
      exact ih hp hq

/-- Loading a project and summarizing never disagree: when the project
exists the summary exists and is summarize's output. -/
theorem getProjectSummary_of_getProject (db : DB) (projectId : Nat)
    (project : ProjectDoc) (h : getProject db projectId = some project) :
    getProjectSummary db projectId = some (summarize db projectId project) := by
  unfold getProjectSummary
  rw [h]

/-! Concrete fixtures used by witnesses and counterexamples. -/

/-- Fixture manager account. -/
def aliceDoc : UserDoc :=
  ⟨1, "alice1", "alice@example.com", Role.manager, getPasswordHash "secret1"⟩

/-- Fixture worker account. -/
def bobDoc : UserDoc :=
  ⟨2, "bob2", "bob@example.com", Role.worker, getPasswordHash "secret2"⟩

/-- Fixture client account. -/
def carolDoc : UserDoc :=
  ⟨3, "carol3", "carol@example.com", Role.client, getPasswordHash "secret3"⟩

/-- Fixture project owned by client carol (id 3), created by manager
alice (id 1); like every project the create-project handler writes, it
has no manager_id. -/
def towerProject : ProjectDoc :=
  ⟨10, "Tower", "a tower", "Nairobi", 1000, 0, 100, 3, "planning", 1, none, []⟩

/-- Fixture store holding the three accounts and the project. -/
def sampleDb : DB :=
  ⟨[aliceDoc, bobDoc, carolDoc], [towerProject], [], [], [], [], [], 30⟩

/-- Token issued to alice (manager) at time 0. -/
def aliceTok : Jwt :=
  createAccessToken "alice1" 1 Role.manager (some accessTokenExpireMinutes) 0

/-- Token issued to bob (worker) at time 0. -/
def bobTok : Jwt :=
  createAccessToken "bob2" 2 Role.worker (some accessTokenExpireMinutes) 0

/-- Token issued to carol (client) at time 0. -/
def carolTok : Jwt :=
  createAccessToken "carol3" 3 Role.client (some accessTokenExpireMinutes) 0

/-! Claim theorems. -/

/-- C1: the claim says a worker creating an inventory request for a
worker_id other than their own receives 403 and a matching worker_id
creates the request.  The code instead evaluates current_user["id"] on
the raw token payload, whose keys are sub, user_id, role and exp, so
every create-request call by an authenticated worker against an
existing project raises KeyError and surfaces as a 500, with the store
unchanged — for mismatched and matching worker_id alike. -/
theorem requestInventoryItem_keyError_500 (db : DB) (now : Nat) (tok : Jwt)
    (data : RequestData) (payload : TokenPayload) (project : ProjectDoc)
    (hrole : checkUserRole [Role.worker] now tok = .ok payload)
    (hproject : getProject db data.projectId = some project) :
    requestInventoryItem db now tok data = (.error .serverError, db) := by
  unfold requestInventoryItem
  rw [hrole, hproject]
  rfl

/-- C1 witness: worker bob, holding a valid token, requests an item for
himself (worker_id 2 = his own id) on the existing project 10 and still
gets the 500. -/
theorem requestInventoryItem_keyError_500_witness :
    requestInventoryItem sampleDb 5 bobTok ⟨"Cement", 10, 10, 2, none⟩ =
      (.error .serverError, sampleDb) :=
  requestInventoryItem_keyError_500 sampleDb 5 bobTok ⟨"Cement", 10, 10, 2, none⟩
    ⟨"bob2", 2, Role.worker, 1440⟩ towerProject (by rfl) (by rfl)

/-- C2: the claim says a manager deleting themselves gets an
InvalidOperation client error and deleting another existing user
succeeds.  The code instead evaluates current_user["id"] on the raw
token payload, whose keys are sub, user_id, role and exp, so every
delete call by an authenticated manager against an existing user raises
KeyError, caught by the handler's blanket except and turned into a 500,
with the store unchanged — for self-deletion and other targets alike. -/
theorem deleteUserById_keyError_500 (db : DB) (now : Nat) (tok : Jwt)
    (userId : Nat) (payload : TokenPayload) (user : UserDoc)
    (hrole : checkUserRole [Role.manager] now tok = .ok payload)
    (huser : getUserById db userId = some user) :
    deleteUserById db now tok userId = (.error .serverError, db) := by
  unfold deleteUserById
  rw [hrole, huser]
  rfl

/-- C2 witness: manager alice, holding a valid token, tries to delete
the distinct existing user bob (id 2) and gets the 500 instead of a
successful deletion. -/
theorem deleteUserById_keyError_500_witness :
    deleteUserById sampleDb 5 aliceTok 2 = (.error .serverError, sampleDb) :=
  deleteUserById_keyError_500 sampleDb 5 aliceTok 2
    ⟨"alice1", 1, Role.manager, 1440⟩ bobDoc (by rfl) (by rfl)

/-- Registration attempt reusing alice's email under a fresh username,
against the sample store. -/
def dupEmailData : RegisterData :=
  ⟨"newuser7", "alice@example.com", Role.client, "secret7"⟩

/-- C3 counterexample: registering with a fresh username but alice's
email is rejected by the store's unique email index and surfaces as a
500 server error, not as a duplicate-email client error (the handler
maps duplicate usernames to 400 but never checks the email); so the
claim's DuplicateEmail outcome does not occur. -/
theorem registerUser_dupEmail_counterexample :
    registerUser sampleDb dupEmailData = (.error .serverError, sampleDb) ∧
    ApiError.serverError ≠ ApiError.badRequest := by
  exact ⟨by rfl, by decide⟩

/-- C3 (amended): a taken username fails with the 400 duplicate error
before any insert; a taken email under a fresh username passes the
handler's username check and is rejected by the store's unique email
index, surfacing as a generic 500; in both cases the store is unchanged,
so no new user record is created. -/
theorem registerUser_duplicate_handling (db : DB) (data : RegisterData) :
    (getUserByUsername db data.username = none →
      db.users.any (fun u => u.email = data.email) = true →
      registerUser db data = (.error .serverError, db)) ∧
    (∀ u, getUserByUsername db data.username = some u →
      registerUser db data = (.error .badRequest, db)) := by
  constructor
  · intro hname hemail
    obtain ⟨u, hu, he⟩ := List.any_eq_true.mp hemail
    have hany : (db.users.any fun v => v.username = data.username || v.email = data.email) = true :=
      List.any_eq_true.mpr ⟨u, hu, by simp_all⟩
    have hcu : createUser db data.username data.email data.role
        (getPasswordHash data.password) = .error () := by
      unfold createUser
      rw [if_pos hany]
    simp only [registerUser, hname, hcu]
  · intro u hu
    unfold registerUser
    rw [hu]

/-- C3 witness: on the sample store, registering the fresh username
newuser7 with alice's already-taken email yields the 500 and leaves the
store unchanged. -/
theorem registerUser_duplicate_handling_witness :
    registerUser sampleDb dupEmailData = (.error .serverError, sampleDb) :=
  (registerUser_duplicate_handling sampleDb dupEmailData).1 (by rfl) (by rfl)

/-- C4: on the project-summary endpoint, once the role gate has
admitted the caller (manager or client) and the project exists, a
client whose token identity differs from the project's client_id gets
403 Forbidden, while the owning client and any manager receive the
summary. -/
theorem getProjectStats_ownership (db : DB) (now : Nat) (tok : Jwt)
    (projectId : Nat) (payload : TokenPayload) (project : ProjectDoc)
    (hrole : checkUserRole [Role.manager, Role.client] now tok = .ok payload)
    (hproject : getProject db projectId = some project) :
    (payload.role = Role.client → project.clientId ≠ payload.userId →
      getProjectStats db now tok projectId = .error .forbidden) ∧
    (payload.role = Role.client → project.clientId = payload.userId →
      getProjectStats db now tok projectId = .ok (summarize db projectId project)) ∧
    (payload.role = Role.manager →
      getProjectStats db now tok projectId = .ok (summarize db projectId project)) := by
  have hsum := getProjectSummary_of_getProject db projectId project hproject
  refine ⟨?_, ?_, ?_⟩
  · intro hc hne
    simp only [getProjectStats, hrole, hproject]
    rw [if_pos ⟨hc, hne⟩]
  · intro hc heq
    simp only [getProjectStats, hrole, hproject, hsum]
    rw [if_neg (fun h => h.2 heq)]
  · intro hm
    simp only [getProjectStats, hrole, hproject, hsum]
    rw [if_neg (fun h => by rw [hm] at h; exact absurd h.1 (by simp))]

/-- C4 witness: on the sample store, the client carol owns project 10
and gets its summary, while a second client (id 7, token-identified)
gets 403, and the manager alice gets the summary. -/
theorem getProjectStats_ownership_witness :
    getProjectStats sampleDb 5 carolTok 10 = .ok (summarize sampleDb 10 towerProject) ∧
    getProjectStats ⟨[aliceDoc, bobDoc, carolDoc,
        ⟨7, "eve7", "eve@example.com", Role.client, getPasswordHash "secret7"⟩],
      [towerProject], [], [], [], [], [], 30⟩ 5
      (createAccessToken "eve7" 7 Role.client (some accessTokenExpireMinutes) 0) 10 =
      .error .forbidden ∧
    getProjectStats sampleDb 5 aliceTok 10 = .ok (summarize sampleDb 10 towerProject) := by
  refine ⟨?_, ?_, ?_⟩
  · exact (getProjectStats_ownership sampleDb 5 carolTok 10
      ⟨"carol3", 3, Role.client, 1440⟩ towerProject (by rfl) (by rfl)).2.1 rfl rfl
  · exact (getProjectStats_ownership _ 5 _ 10
      ⟨"eve7", 7, Role.client, 1440⟩ towerProject (by rfl) (by rfl)).1 rfl (by decide)
  · exact (getProjectStats_ownership sampleDb 5 aliceTok 10
      ⟨"alice1", 1, Role.manager, 1440⟩ towerProject (by rfl) (by rfl)).2.2 rfl

/-- C5: for an existing project, the summary's progress_percentage is
the percentage_complete of the last progress report of the project's
embedded report list, and 0 when that list is empty. -/
theorem getProjectSummary_progress (db : DB) (projectId : Nat)
    (project : ProjectDoc) (hproject : getProject db projectId = some project) :
    ∃ s, getProjectSummary db projectId = some s ∧
      (project.progressReports = [] → s.progressPercentage = 0) ∧
      (∀ r, project.progressReports.getLast? = some r →
        s.progressPercentage = r.percentageComplete) := by
  refine ⟨summarize db projectId project,
    getProjectSummary_of_getProject db projectId project hproject, ?_, ?_⟩
  · intro hempty
    simp [summarize, getProgressReports, hproject, hempty]
  · intro r hlast
    simp [summarize, getProgressReports, hproject, hlast]

/-- C5 witness: a project with two progress reports (40 then 75)
summarizes to progress_percentage 75. -/
theorem getProjectSummary_progress_witness :
    ∃ s, getProjectSummary
        ⟨[carolDoc],
          [⟨11, "Villa", "v", "Dar", 500, 0, 9, 3, "planning", 1, none,
            [⟨1, "early", 40⟩, ⟨2, "later", 75⟩]⟩],
          [], [], [], [], [], 30⟩ 11 = some s ∧
      s.progressPercentage = 75 := by
  obtain ⟨s, hs, _, hlast⟩ := getProjectSummary_progress
    ⟨[carolDoc],
      [⟨11, "Villa", "v", "Dar", 500, 0, 9, 3, "planning", 1, none,
        [⟨1, "early", 40⟩, ⟨2, "later", 75⟩]⟩],
      [], [], [], [], [], 30⟩ 11
    ⟨11, "Villa", "v", "Dar", 500, 0, 9, 3, "planning", 1, none,
      [⟨1, "early", 40⟩, ⟨2, "later", 75⟩]⟩ (by rfl)
  exact ⟨s, hs, hlast ⟨2, "later", 75⟩ (by rfl)⟩

/-- C6: for an existing project, the summary's total_expenses is the
sum of the amounts of all stored expenses referencing that project —
the filter looks only at project_id, so pending, approved and flagged
expenses are all included — and expenses_count is the number of those
expenses. -/
theorem getProjectSummary_expenses (db : DB) (projectId : Nat)
    (project : ProjectDoc) (hproject : getProject db projectId = some project) :
    ∃ s, getProjectSummary db projectId = some s ∧
      s.totalExpenses =
        ((db.expenses.filter (fun e => e.projectId = projectId)).map
          (fun e => e.amount)).sum ∧
      s.expensesCount =
        (db.expenses.filter (fun e => e.projectId = projectId)).length := by
  exact ⟨summarize db projectId project,
    getProjectSummary_of_getProject db projectId project hproject, rfl, rfl⟩

/-- C6 witness: a project with one pending, one approved and one
flagged expense (7 + 11 + 5) summarizes to total_expenses 23 and
expenses_count 3; an expense of another project is not counted. -/
theorem getProjectSummary_expenses_witness :
    ∃ s, getProjectSummary
        ⟨[carolDoc], [towerProject],
          [],
          [⟨21, 7, "cement", 0, 10, "pending"⟩, ⟨22, 11, "steel", 0, 10, "approved"⟩,
            ⟨23, 5, "paint", 0, 10, "flagged"⟩, ⟨24, 100, "other", 0, 99, "pending"⟩],
          [], [], [], 30⟩ 10 = some s ∧
      s.totalExpenses = 23 ∧ s.expensesCount = 3 := by
  obtain ⟨s, hs, hsum, hcount⟩ := getProjectSummary_expenses
    ⟨[carolDoc], [towerProject],
      [],
      [⟨21, 7, "cement", 0, 10, "pending"⟩, ⟨22, 11, "steel", 0, 10, "approved"⟩,
        ⟨23, 5, "paint", 0, 10, "flagged"⟩, ⟨24, 100, "other", 0, 99, "pending"⟩],
      [], [], [], 30⟩ 10 towerProject (by rfl)
  refine ⟨s, hs, ?_, ?_⟩
  · rw [hsum]; norm_num
  · rw [hcount]; rfl

/-- C7: logging a material usage always stores the log; when an
inventory item matching the used item's name and project exists (and is
the first document carrying its id, as ids are unique in the store),
that item's quantity is decremented by exactly the used amount and it
reads back with the decremented quantity; when no matching item exists
the inventory is unchanged. -/
theorem logMaterialUsage_effect (db : DB) (usage : UsageCreate) (rid : Nat)
    (db1 : DB) (h : logMaterialUsage db usage = (rid, db1)) :
    db1.usageLogs = db.usageLogs ++
      [⟨db.nextId, usage.itemName, usage.quantityUsed, usage.date, usage.projectId⟩] ∧
    (db.inventory.find?
        (fun it => it.name = usage.itemName && it.projectId = usage.projectId) = none →
      db1.inventory = db.inventory) ∧
    (∀ item, db.inventory.find?
        (fun it => it.name = usage.itemName && it.projectId = usage.projectId) = some item →
      db.inventory.find? (fun it => it.id = item.id) = some item →
      db1.inventory.find?
        (fun it => it.name = usage.itemName && it.projectId = usage.projectId) =
        some { item with quantity := item.quantity - usage.quantityUsed }) := by
  cases hfind : db.inventory.find?
      (fun it => it.name = usage.itemName && it.projectId = usage.projectId) with
  | none =>
    simp only [logMaterialUsage, hfind] at h
    injection h with h1 h2
    subst h1
    subst h2
    refine ⟨rfl, fun _ => rfl, ?_⟩
    intro item hitem _
    exact Option.noConfusion hitem
  | some item =>
    simp only [logMaterialUsage, hfind] at h
    injection h with h1 h2
    subst h1
    subst h2
    refine ⟨rfl, ?_, ?_⟩
    · intro hnone
      exact Option.noConfusion hnone
    · intro item' hitem' hid
      have hii : item = item' := Option.some_injective _ hitem'
      subst hii
      have hp : (fun it =>
          it.name = usage.itemName && it.projectId = usage.projectId)
          { item with quantity := item.quantity - usage.quantityUsed } = true := by
        have := List.find?_some hfind
        simpa using this
      exact find?_updateFirst _ _ _ item hp db.inventory hfind hid

/-- Fixture store with a 100-bag Cement item on project 10. -/
def cementDb : DB :=
  ⟨[aliceDoc], [towerProject],
    [⟨20, "Cement", none, 100, "bags", none, 10⟩], [], [], [], [], 40⟩

/-- Usage of 30 Cement on project 10. -/
def cementUsage : UsageCreate := ⟨"Cement", 30, 0, 10⟩

/-- C7 witness: the round trip of the claim — an inventory item
"Cement" on project 10 created with quantity 100, then a usage log of
30 for "Cement" on project 10, reads back with quantity 70; and the log
itself is stored. -/
theorem logMaterialUsage_effect_witness :
    (((logMaterialUsage cementDb cementUsage).2).inventory.find?
      (fun it => it.name = cementUsage.itemName &&
        it.projectId = cementUsage.projectId) =
      some ⟨20, "Cement", none, 70, "bags", none, 10⟩) ∧
    ((logMaterialUsage cementDb cementUsage).2).usageLogs =
      [⟨40, "Cement", 30, 0, 10⟩] := by
  have h := logMaterialUsage_effect cementDb cementUsage
    (logMaterialUsage cementDb cementUsage).1
    (logMaterialUsage cementDb cementUsage).2 rfl
  refine ⟨?_, ?_⟩
  · rw [h.2.2 ⟨20, "Cement", none, 100, "bags", none, 10⟩ (by rfl) (by rfl)]
    simp only [Option.some.injEq, ItemDoc.mk.injEq, cementUsage]
    norm_num
  · rw [h.1]
    rfl

/-- C8: a token issued by login embeds subject = the stored username,
the stored user id and role, and an expiry 24 hours (1440 minutes)
after issuance; decoding at any time before the expiry recovers exactly
that payload; at any time after the expiry, token validation fails with
401; and a token whose signature was not produced with the server's
secret key fails with 401 at every time. -/
theorem loginToken_roundtrip (db : DB) (now : Nat) (username password : String)
    (tok : Jwt) (user : UserDoc)
    (hlogin : loginForAccessToken db now username password = .ok tok)
    (huser : getUserByUsername db username = some user) :
    tok = ⟨⟨user.username, user.id, user.role, now + accessTokenExpireMinutes⟩, secretKey⟩ ∧
    (∀ t, t < now + accessTokenExpireMinutes →
      jwtDecode secretKey t tok =
        some ⟨user.username, user.id, user.role, now + accessTokenExpireMinutes⟩) ∧
    (∀ t, now + accessTokenExpireMinutes < t →
      getCurrentUser db t tok = .error .unauthorized) ∧
    (∀ key t, key ≠ secretKey →
      getCurrentUser db t ⟨tok.payload, key⟩ = .error .unauthorized) := by
  simp only [loginForAccessToken, authenticateUser, huser] at hlogin
  cases hv : verifyPassword password user.hashedPassword with
  | false => simp [hv] at hlogin
  | true =>
    simp [hv] at hlogin
    subst hlogin
    refine ⟨rfl, ?_, ?_, ?_⟩
    · intro t ht
      simp [jwtDecode, createAccessToken, jwtEncode,
        show ¬(now + accessTokenExpireMinutes < t) from by omega]
    · intro t ht
      simp [getCurrentUser, jwtDecode, createAccessToken, jwtEncode, ht]
    · intro key t hk
      simp [getCurrentUser, jwtDecode, hk]

/-- C8 witness: alice logs in at time 0; decoding her token at time 100
(before expiry 1440) yields her username, id 1, manager role and expiry
1440; validating it at time 2000 (after expiry) yields 401; and the
same payload signed under a different key yields 401. -/
theorem loginToken_roundtrip_witness :
    jwtDecode secretKey 100 aliceTok = some ⟨"alice1", 1, Role.manager, 1440⟩ ∧
    getCurrentUser sampleDb 2000 aliceTok = .error .unauthorized ∧
    getCurrentUser sampleDb 100 ⟨aliceTok.payload, "wrongkey"⟩ = .error .unauthorized := by
  have h := loginToken_roundtrip sampleDb 0 "alice1" "secret1" aliceTok aliceDoc
    (by rfl) (by rfl)
  exact ⟨h.2.1 100 (by norm_num [accessTokenExpireMinutes]),
    h.2.2.1 2000 (by norm_num [accessTokenExpireMinutes]),
    h.2.2.2 "wrongkey" 100 (by decide)⟩

/-- C9 counterexample: the ideal scenario of the claim — worker bob,
valid token, an existing project, a request for himself — does not
create a request at all: the endpoint returns the 500 caused by the
current_user["id"] KeyError and the store (hence its notifications
collection) is unchanged, so no inventory_request notification to any
manager is produced. -/
theorem requestNotification_counterexample :
    requestInventoryItem sampleDb 7 bobTok ⟨"Steel", 5, 10, 2, none⟩ =
      (.error .serverError, sampleDb) := by
  rfl

/-- C9 (amended): create_request always inserts exactly one
notification, of type inventory_request, whose recipient user_id is the
manager_id field carried by the request data (None unless the router
filled it in) — not a value resolved through the project; and no
project stored by the create-project endpoint carries a manager_id at
all, so the router's project.get("manager_id") resolution never finds a
manager. -/
theorem createRequest_notification_recipient :
    (∀ db data, ((createRequest db data).2).notifications =
      db.notifications ++
        [⟨db.nextId + 1, data.managerId, "inventory_request",
          "New inventory request for " ++ data.itemName, false, some db.nextId⟩]) ∧
    (∀ db now tok data pid db1,
      createProjectEndpoint db now tok data = (.ok pid, db1) →
      ∀ p ∈ db1.projects, p ∈ db.projects ∨ p.managerId = none) := by
  constructor
  · intro db data
    rfl
  · intro db now tok data pid db1 h p hp
    cases hrole : checkUserRole [Role.manager] now tok with
    | error e =>
      simp only [createProjectEndpoint, hrole] at h
      exact absurd h (by simp)
    | ok payload =>
      cases hclient : getUserById db data.clientId with
      | none =>
        simp only [createProjectEndpoint, hrole, hclient] at h
        exact absurd h (by simp)
      | some client =>
        simp only [createProjectEndpoint, hrole, hclient] at h
        by_cases hcr : client.role ≠ Role.client
        · rw [if_pos hcr] at h
          exact absurd h (by simp)
        · rw [if_neg hcr] at h
          injection h with h1 h2
          subst h2
          rcases List.mem_append.mp hp with hl | hr
          · exact Or.inl hl
          · refine Or.inr ?_
            rw [List.mem_singleton.mp hr]

/-- C9 witness: creating a request whose data carries no manager_id
(the default) inserts exactly one inventory_request notification whose
recipient is None, and a freshly created project (id 30, client carol)
carries no manager_id. -/
theorem createRequest_notification_recipient_witness :
    (((createRequest sampleDb ⟨"Steel", 5, 10, 2, none⟩).2).notifications =
      [⟨31, none, "inventory_request", "New inventory request for Steel",
        false, some 30⟩]) ∧
    (∀ p ∈ ((createProjectEndpoint sampleDb 5 aliceTok
        ⟨"Villa", "v", "Dar", 500, 0, 9, 3⟩).2).projects,
      p ∈ sampleDb.projects ∨ p.managerId = none) := by
  constructor
  · rw [createRequest_notification_recipient.1 sampleDb ⟨"Steel", 5, 10, 2, none⟩]
    rfl
  · exact createRequest_notification_recipient.2 sampleDb 5 aliceTok
      ⟨"Villa", "v", "Dar", 500, 0, 9, 3⟩ 30
      (createProjectEndpoint sampleDb 5 aliceTok ⟨"Villa", "v", "Dar", 500, 0, 9, 3⟩).2
      (by rfl)

/-- Fixture notification addressed to user 7, already read. -/
def readNotif : NotifDoc := ⟨5, some 7, "inventory_request", "msg", true, none⟩

/-- Fixture notification addressed to user 7, unread. -/
def unreadNotif : NotifDoc := ⟨6, some 7, "inventory_request", "msg2", false, none⟩

/-- Fixture store for the notification endpoint: alice plus one read
and one unread notification, both addressed to user 7 (not alice). -/
def notifDb : DB := ⟨[aliceDoc], [], [], [], [], [], [readNotif, unreadNotif], 30⟩

/-- C10 counterexample: the claim promises success for every existing
notification, but marking the already-read notification 5 (recipient 7,
caller alice) returns a 500 because the underlying update modifies no
document, even though the notification exists. -/
theorem markNotificationAsRead_counterexample :
    markNotificationAsRead notifDb 5 aliceTok 5 = (.error .serverError, notifDb) := by
  rfl

/-- C10 (amended): for any authenticated caller and any existing unread
notification, the mark-as-read endpoint flips the read flag to true and
returns success even when the notification is addressed to a different
user — no ownership check is performed, in contrast to the listing
endpoint; an existing but already-read notification instead yields a
500 because the update modifies nothing. -/
theorem markNotificationAsRead_no_ownership (db : DB) (now : Nat) (tok : Jwt)
    (nid : Nat) (caller : UserDoc) (n : NotifDoc)
    (hauth : getCurrentUser db now tok = .ok caller)
    (hfind : db.notifications.find? (fun m => m.id = nid) = some n)
    (hunread : n.read = false)
    (hother : n.userId ≠ some caller.id) :
    markNotificationAsRead db now tok nid =
      (.ok (), { db with notifications := updateFirst (fun m => m.id = nid) (fun m => { m with read := true }) db.notifications }) ∧
    ((markNotificationAsRead db now tok nid).2).notifications.find?
      (fun m => m.id = nid) = some { n with read := true } := by
  have hmark : markNotificationRead db nid =
      (true, { db with notifications := updateFirst (fun m => m.id = nid) (fun m => { m with read := true }) db.notifications }) := by
    simp only [markNotificationRead, hfind, hunread]
    rfl
  have hmain : markNotificationAsRead db now tok nid =
      (.ok (), { db with notifications := updateFirst (fun m => m.id = nid) (fun m => { m with read := true }) db.notifications }) := by
    simp only [markNotificationAsRead, hauth, hmark]
    rfl
  refine ⟨hmain, ?_⟩
  rw [hmain]
  have hid : (fun m : NotifDoc => decide (m.id = nid)) { n with read := true } = true := by
    have := List.find?_some hfind
    simpa using this
  exact find?_updateFirst _ _ _ n hid db.notifications hfind hfind

/-- C10 witness: alice marks the unread notification 6 — addressed to
user 7, not to her — as read: the call succeeds and the notification
reads back with its read flag set. -/
theorem markNotificationAsRead_no_ownership_witness :
    ((markNotificationAsRead notifDb 5 aliceTok 6).2).notifications.find?
      (fun m => m.id = 6) =
      some ⟨6, some 7, "inventory_request", "msg2", true, none⟩ := by
  have h := markNotificationAsRead_no_ownership notifDb 5 aliceTok 6 aliceDoc
    unreadNotif (by rfl) (by rfl) (by rfl) (by decide)
  exact h.2

end ConstructionApi
